import Mathlib

/-
Verification of the recipe-recommendation service:
a shallow embedding of the parsing state machine `extract_recipe_parts`,
the detailed prompt-context builders, and the streaming error relay,
with theorems settling the specification's claims about them.

Python string primitives are embedded over `String`/`List Char`:
`str.strip()` drops whitespace at both ends, `needle in hay` is a
substring scan, `str.replace(c, '')` is a character filter, `str.upper()`
is a character-wise ASCII upcase, `str.split(c)` keeps empty pieces, and
the two anchored regular expressions of the source are explicit list
functions, faithful on the stripped lines they are applied to.
-/

/-- Boolean substring containment over character lists: Python's `needle in hay`. -/
def listContains (needle : List Char) : List Char → Bool
  | [] => needle.isEmpty
  | c :: rest => needle.isPrefixOf (c :: rest) || listContains needle rest

/-- Python `needle in hay` on strings. -/
def pyIn (needle hay : String) : Bool := listContains needle.data hay.data

/-- Python `s.upper()` (ASCII letters; the section markers are ASCII). -/
def pyUpper (s : String) : String := ⟨s.data.map Char.toUpper⟩

/-- Python `s.strip()`: drop leading and trailing whitespace. -/
def pyStrip (s : String) : String :=
  ⟨(((s.data.dropWhile Char.isWhitespace).reverse.dropWhile Char.isWhitespace).reverse)⟩

/-- Python `s.startswith(c)` for a single character. -/
def startsWithChar (c : Char) (s : String) : Bool :=
  match s.data with
  | [] => false
  | a :: _ => a = c

/-- Python `s.split(c)` for a single-character separator: split at every
occurrence, keeping empty pieces (`''.split('\n') == ['']`). -/
def splitOnChar (c : Char) : List Char → List (List Char)
  | [] => [[]]
  | a :: rest =>
    let r := splitOnChar c rest
    if a = c then [] :: r
    else
      match r with
      | [] => [[a]]
      | h :: t => (a :: h) :: t

/-- Python `s.replace(c, '')`: delete every occurrence of the character `c`. -/
def pyReplaceChar (c : Char) (s : String) : String := ⟨s.data.filter (fun a => a != c)⟩

/-- `recipe_text.replace('*', '').replace('#', '')` (recommender.py line 131). -/
def removeMarkdown (s : String) : String := pyReplaceChar '#' (pyReplaceChar '*' s)

/-- The marker test `'MARKER:' in line.upper()` of the scanning loop. -/
def containsMarker (marker line : String) : Bool := pyIn marker (pyUpper line)

/-- Python `re.sub(r'^MARKER\s*', '', line, flags=re.IGNORECASE)`: if the
line starts (case-insensitively) with the marker, drop it and any
whitespace right after it; otherwise return the line unchanged. -/
def subMarkerStart (marker line : String) : String :=
  if marker.data.isPrefixOf (pyUpper line).data then
    ⟨(line.data.drop marker.data.length).dropWhile Char.isWhitespace⟩
  else line

/-- Python `re.match(r'^\d+\.\s*(.+)$', line)` applied to an already
stripped line (the scanning loop strips every line first): one or more
leading digits, a dot, optional whitespace, then a non-empty remainder,
which is the captured group. -/
def matchNumberDot (line : String) : Option String :=
  let ds := line.data.takeWhile Char.isDigit
  if ds.isEmpty then none
  else
    match line.data.drop ds.length with
    | '.' :: rest =>
      let r := rest.dropWhile Char.isWhitespace
      if r.isEmpty then none else some ⟨r⟩
    | _ => none

/-- `line.replace('-', '')` from the ingredients branch: every dash removed. -/
def removeDashes (s : String) : String := ⟨s.data.filter (fun a => a != '-')⟩

/-- The multi-line sections the parser's cursor can point at. -/
inductive Sect where
  | ingredients
  | instructions
  | notes
deriving DecidableEq, Repr

/-- The mutable locals of `extract_recipe_parts`'s scanning loop. -/
structure PState where
  title : String
  ingredients : List String
  instructions : List String
  cooking_time : String
  difficulty : String
  notes : String
  curSection : Option Sect
deriving DecidableEq, Repr

/-- Loop-entry state: empty fields, `current_section = None`. -/
def initState : PState := ⟨"", [], [], "", "", "", none⟩

/-- The defensive marker list of the ingredients routing branch
(recommender.py line 177). -/
def ingFilterMarkers : List String :=
  ["TITLE:", "INSTRUCTIONS:", "COOKING TIME:", "DIFFICULTY:", "NOTES:"]

/-- The defensive marker list of the instructions routing branch
(recommender.py line 187). -/
def insFilterMarkers : List String :=
  ["TITLE:", "INGREDIENTS:", "COOKING TIME:", "DIFFICULTY:", "NOTES:"]

/-- All six section markers. -/
def allMarkers : List String :=
  ["TITLE:", "INGREDIENTS:", "INSTRUCTIONS:", "COOKING TIME:", "DIFFICULTY:", "NOTES:"]

/-- `any(section in line.upper() for section in markers)`. -/
def anyMarkerIn (markers : List String) (line : String) : Bool :=
  markers.any (fun m => pyIn m (pyUpper line))

/-- One iteration of the scanning loop of `extract_recipe_parts`
(recommender.py lines 145-194) on an already stripped line. -/
def scanLine (st : PState) (line : String) : PState :=
  if line = "" then st
  else if containsMarker "TITLE:" line then
    { st with title := subMarkerStart "TITLE:" line }
  else if containsMarker "INGREDIENTS:" line then
    { st with curSection := some Sect.ingredients }
  else if containsMarker "INSTRUCTIONS:" line then
    { st with curSection := some Sect.instructions }
  else if containsMarker "COOKING TIME:" line then
    { st with cooking_time := subMarkerStart "COOKING TIME:" line }
  else if containsMarker "DIFFICULTY:" line then
    { st with difficulty := subMarkerStart "DIFFICULTY:" line }
  else if containsMarker "NOTES:" line then
    { st with curSection := some Sect.notes, notes := subMarkerStart "NOTES:" line }
  else
    match st.curSection with
    | some Sect.ingredients =>
      if startsWithChar '-' line then
        { st with ingredients := st.ingredients ++ [pyStrip (removeDashes line)] }
      else if !(anyMarkerIn ingFilterMarkers line) then
        { st with ingredients := st.ingredients ++ [pyStrip line] }
      else st
    | some Sect.instructions =>
      match matchNumberDot line with
      | some g => { st with instructions := st.instructions ++ [pyStrip g] }
      | none =>
        if !(anyMarkerIn insFilterMarkers line) then
          { st with instructions := st.instructions ++ [pyStrip line] }
        else st
    | some Sect.notes =>
      { st with notes := if st.notes ≠ "" then st.notes ++ " " ++ line else line }
    | none => st

/-- One iteration on a raw line: the loop first runs `line = line.strip()`. -/
def processLine (st : PState) (raw : String) : PState := scanLine st (pyStrip raw)

/-- The structured record `extract_recipe_parts` returns. -/
structure RecipeParts where
  title : String
  ingredients : List String
  instructions : List String
  cooking_time : String
  difficulty : String
  notes : String
deriving DecidableEq, Repr

/-- The finalization step (recommender.py lines 196-211): default any empty
single-line field and package the record. -/
def finalize (st : PState) : RecipeParts :=
  { title := st.title
    ingredients := st.ingredients
    instructions := st.instructions
    cooking_time := if st.cooking_time = "" then "Not specified" else st.cooking_time
    difficulty := if st.difficulty = "" then "Not specified" else st.difficulty
    notes := if st.notes = "" then "No additional notes." else st.notes }

/-- `recipe_text.strip().split('\n')` after markdown removal. -/
def linesOfText (text : String) : List String :=
  (splitOnChar '\n' (pyStrip (removeMarkdown text)).data).map (fun l => (⟨l⟩ : String))

/-- Run the scanning loop over a list of lines and finalize. -/
def extractLines (lines : List String) : RecipeParts :=
  finalize (lines.foldl processLine initState)

/-- `RecipeRecommender.extract_recipe_parts` (recommender.py lines 120-211). -/
def extract_recipe_parts (text : String) : RecipeParts :=
  extractLines (linesOfText text)

/-- The scanning-loop iteration with the two defensive marker filters of the
routing branches removed (the `not any(section in line.upper() ...)`
conditions replaced by `True`). Used to state that those filters are
redundant. -/
def scanLineNoFilter (st : PState) (line : String) : PState :=
  if line = "" then st
  else if containsMarker "TITLE:" line then
    { st with title := subMarkerStart "TITLE:" line }
  else if containsMarker "INGREDIENTS:" line then
    { st with curSection := some Sect.ingredients }
  else if containsMarker "INSTRUCTIONS:" line then
    { st with curSection := some Sect.instructions }
  else if containsMarker "COOKING TIME:" line then
    { st with cooking_time := subMarkerStart "COOKING TIME:" line }
  else if containsMarker "DIFFICULTY:" line then
    { st with difficulty := subMarkerStart "DIFFICULTY:" line }
  else if containsMarker "NOTES:" line then
    { st with curSection := some Sect.notes, notes := subMarkerStart "NOTES:" line }
  else
    match st.curSection with
    | some Sect.ingredients =>
      if startsWithChar '-' line then
        { st with ingredients := st.ingredients ++ [pyStrip (removeDashes line)] }
      else
        { st with ingredients := st.ingredients ++ [pyStrip line] }
    | some Sect.instructions =>
      match matchNumberDot line with
      | some g => { st with instructions := st.instructions ++ [pyStrip g] }
      | none => { st with instructions := st.instructions ++ [pyStrip line] }
    | some Sect.notes =>
      { st with notes := if st.notes ≠ "" then st.notes ++ " " ++ line else line }
    | none => st

/-- `processLine` with the defensive filters removed. -/
def processLineNoFilter (st : PState) (raw : String) : PState :=
  scanLineNoFilter st (pyStrip raw)

/-- Python `sep.join(xs)`. -/
def pyJoin (sep : String) (xs : List String) : String := String.intercalate sep xs

/-- Python `v or d` on an optional integer: `None` and `0` are falsy. -/
def intOrDefault (v : Option Int) (d : Int) : Int :=
  match v with
  | some n => if n = 0 then d else n
  | none => d

/-- The `context_parts` / `full_context` construction of
`RecipeRecommender.get_recipe_with_parameters` (recommender.py lines
248-261): base lines for ingredients and servings, then one line per
constraint guarded by Python truthiness (`if dietary_restrictions:` /
`if cuisine_preference:` / `if cooking_time:`), joined with newlines. -/
def buildDetailedContext (ingredients : List String) (servings : Option Int)
    (dietary : Option (List String)) (cuisine : Option String)
    (cookingTime : Option Int) : String :=
  let base := ["Main Ingredients Available: " ++ pyJoin ", " ingredients,
               "Servings: " ++ toString (intOrDefault servings 2)]
  let withDiet := base ++
    (match dietary with
     | some ds => if ds.isEmpty then [] else ["Dietary Restrictions: " ++ pyJoin ", " ds]
     | none => [])
  let withCuisine := withDiet ++
    (match cuisine with
     | some c => if c = "" then [] else ["Cuisine Preference: " ++ c]
     | none => [])
  let ctx := withCuisine ++
    (match cookingTime with
     | some t => if t = 0 then [] else ["Maximum Cooking Time: " ++ toString t ++ " minutes"]
     | none => [])
  pyJoin "\n" ctx

/-- The identical `context_parts` / `full_context` construction of
`RecipeRecommender.get_recipe_with_parameters_stream` (recommender.py
lines 319-332), transcribed separately from that second code site. -/
def buildDetailedContextStream (ingredients : List String) (servings : Option Int)
    (dietary : Option (List String)) (cuisine : Option String)
    (cookingTime : Option Int) : String :=
  let base := ["Main Ingredients Available: " ++ pyJoin ", " ingredients,
               "Servings: " ++ toString (intOrDefault servings 2)]
  let withDiet := base ++
    (match dietary with
     | some ds => if ds.isEmpty then [] else ["Dietary Restrictions: " ++ pyJoin ", " ds]
     | none => [])
  let withCuisine := withDiet ++
    (match cuisine with
     | some c => if c = "" then [] else ["Cuisine Preference: " ++ c]
     | none => [])
  let ctx := withCuisine ++
    (match cookingTime with
     | some t => if t = 0 then [] else ["Maximum Cooking Time: " ++ toString t ++ " minutes"]
     | none => [])
  pyJoin "\n" ctx

/-- Enumeration described by the amended claim C5, written from the claim's
words rather than from the code: the base ingredient and serving lines,
then, in this stable order, one line per supplied truthy constraint —
dietary restrictions when a nonempty list is given, cuisine preference when
a nonempty string is given, cooking time when a nonzero limit is given —
and no line at all for an absent or falsy constraint. -/
def claimedContextLines (ingredients : List String) (servings : Option Int)
    (dietary : Option (List String)) (cuisine : Option String)
    (cookingTime : Option Int) : List String :=
  ["Main Ingredients Available: " ++ pyJoin ", " ingredients,
   "Servings: " ++ toString (intOrDefault servings 2)] ++
  (if dietary.getD [] ≠ [] then
    ["Dietary Restrictions: " ++ pyJoin ", " (dietary.getD [])] else []) ++
  (if cuisine.getD "" ≠ "" then ["Cuisine Preference: " ++ cuisine.getD ""] else []) ++
  (if cookingTime.getD 0 ≠ 0 then
    ["Maximum Cooking Time: " ++ toString (cookingTime.getD 0) ++ " minutes"] else [])

/-- One observable event of the upstream token iteration of a streaming
completion: either a text fragment arrives, or the iteration raises an
exception carrying a message. -/
inductive StreamEvent where
  | token : String → StreamEvent
  | failure : String → StreamEvent
deriving DecidableEq, Repr

/-- The `generate()` inner coroutine of the streaming endpoints
(main.py lines 159-167 and 179-190): relay each upstream fragment in
order; on the first upstream exception, yield one final fragment
`"Error: " + str(e)` and end the stream instead of raising. -/
def relayStream : List StreamEvent → List String
  | [] => []
  | StreamEvent.token s :: rest => s :: relayStream rest
  | StreamEvent.failure m :: _ => ["Error: " ++ m]

/-- A line the scanning loop treats as a title line: after stripping, it
contains `TITLE:` case-insensitively. -/
def isTitleLine (l : String) : Bool := containsMarker "TITLE:" (pyStrip l)

/-- A well-formed bulleted ingredient line: already stripped, starts with a
dash, and contains no section marker. -/
def goodIngLine (l : String) : Bool :=
  (pyStrip l == l) && startsWithChar '-' l && !(anyMarkerIn allMarkers l)

/-- A well-formed numbered instruction line: already stripped, matches the
`^\d+\.\s*(.+)$` pattern, and contains no section marker. -/
def goodInsLine (l : String) : Bool :=
  (pyStrip l == l) && (matchNumberDot l).isSome && !(anyMarkerIn allMarkers l)

/-- A completion whose six sections appear in the canonical order, with the
given ingredient and instruction lines. -/
def canonLines (ings insts : List String) : List String :=
  ["TITLE: Recipe", "INGREDIENTS:"] ++ ings ++ ["INSTRUCTIONS:"] ++ insts ++
    ["COOKING TIME: 10 minutes", "DIFFICULTY: Easy", "NOTES: ok"]

theorem scanLine_title_keep (st : PState) (line : String)
    (h : containsMarker "TITLE:" line = false) :
    (scanLine st line).title = st.title := by
  have n : ¬(containsMarker "TITLE:" line = true) := by simp [h]
  unfold scanLine
  rw [if_neg n]
  split_ifs <;>
    first
    | rfl
    | (rcases st.curSection with _ | s
       · rfl
       · cases s
         · rfl
         · rcases matchNumberDot line with _ | g <;> rfl
         · rfl)

theorem scanLine_cook_keep (st : PState) (line : String)
    (h : containsMarker "COOKING TIME:" line = false) :
    (scanLine st line).cooking_time = st.cooking_time := by
  have n : ¬(containsMarker "COOKING TIME:" line = true) := by simp [h]
  unfold scanLine
  rw [if_neg n]
  split_ifs <;>
    first
    | rfl
    | (rcases st.curSection with _ | s
       · rfl
       · cases s
         · rfl
         · rcases matchNumberDot line with _ | g <;> rfl
         · rfl)

theorem scanLine_diff_keep (st : PState) (line : String)
    (h : containsMarker "DIFFICULTY:" line = false) :
    (scanLine st line).difficulty = st.difficulty := by
  have n : ¬(containsMarker "DIFFICULTY:" line = true) := by simp [h]
  unfold scanLine
  rw [if_neg n]
  split_ifs <;>
    first
    | rfl
    | (rcases st.curSection with _ | s
       · rfl
       · cases s
         · rfl
         · rcases matchNumberDot line with _ | g <;> rfl
         · rfl)

theorem scanLine_title_set (st : PState) (line : String)
    (h : containsMarker "TITLE:" line = true) :
    scanLine st line = { st with title := subMarkerStart "TITLE:" line } := by
  have hne : ¬(line = "") := by
    rintro rfl
    exact absurd h (by decide)
  unfold scanLine
  rw [if_neg hne, if_pos h]

theorem anyIngFilter_false (line : String)
    (h1 : containsMarker "TITLE:" line = false)
    (h3 : containsMarker "INSTRUCTIONS:" line = false)
    (h4 : containsMarker "COOKING TIME:" line = false)
    (h5 : containsMarker "DIFFICULTY:" line = false)
    (h6 : containsMarker "NOTES:" line = false) :
    anyMarkerIn ingFilterMarkers line = false := by
  show (containsMarker "TITLE:" line || (containsMarker "INSTRUCTIONS:" line ||
    (containsMarker "COOKING TIME:" line || (containsMarker "DIFFICULTY:" line ||
      (containsMarker "NOTES:" line || false))))) = false
  rw [h1, h3, h4, h5, h6]
  rfl

theorem anyInsFilter_false (line : String)
    (h1 : containsMarker "TITLE:" line = false)
    (h2 : containsMarker "INGREDIENTS:" line = false)
    (h4 : containsMarker "COOKING TIME:" line = false)
    (h5 : containsMarker "DIFFICULTY:" line = false)
    (h6 : containsMarker "NOTES:" line = false) :
    anyMarkerIn insFilterMarkers line = false := by
  show (containsMarker "TITLE:" line || (containsMarker "INGREDIENTS:" line ||
    (containsMarker "COOKING TIME:" line || (containsMarker "DIFFICULTY:" line ||
      (containsMarker "NOTES:" line || false))))) = false
  rw [h1, h2, h4, h5, h6]
  rfl

theorem scanLine_eq_noFilter (st : PState) (line : String) :
    scanLine st line = scanLineNoFilter st line := by
  unfold scanLine scanLineNoFilter
  by_cases h0 : line = ""
  · rw [if_pos h0, if_pos h0]
  rw [if_neg h0, if_neg h0]
  by_cases h1 : containsMarker "TITLE:" line = true
  · rw [if_pos h1, if_pos h1]
  rw [if_neg h1, if_neg h1]
  by_cases h2 : containsMarker "INGREDIENTS:" line = true
  · rw [if_pos h2, if_pos h2]
  rw [if_neg h2, if_neg h2]
  by_cases h3 : containsMarker "INSTRUCTIONS:" line = true
  · rw [if_pos h3, if_pos h3]
  rw [if_neg h3, if_neg h3]
  by_cases h4 : containsMarker "COOKING TIME:" line = true
  · rw [if_pos h4, if_pos h4]
  rw [if_neg h4, if_neg h4]
  by_cases h5 : containsMarker "DIFFICULTY:" line = true
  · rw [if_pos h5, if_pos h5]
  rw [if_neg h5, if_neg h5]
  by_cases h6 : containsMarker "NOTES:" line = true
  · rw [if_pos h6, if_pos h6]
  rw [if_neg h6, if_neg h6]
  have e1 : containsMarker "TITLE:" line = false := by simpa using h1
  have e2 : containsMarker "INGREDIENTS:" line = false := by simpa using h2
  have e3 : containsMarker "INSTRUCTIONS:" line = false := by simpa using h3
  have e4 : containsMarker "COOKING TIME:" line = false := by simpa using h4
  have e5 : containsMarker "DIFFICULTY:" line = false := by simpa using h5
  have e6 : containsMarker "NOTES:" line = false := by simpa using h6
  rcases st.curSection with _ | s
  · rfl
  · cases s
    · by_cases hb : startsWithChar '-' line = true
      · rw [if_pos hb, if_pos hb]
      rw [if_neg hb, if_neg hb]
      have hf : (!anyMarkerIn ingFilterMarkers line) = true := by
        rw [anyIngFilter_false line e1 e3 e4 e5 e6]
        rfl
      rw [if_pos hf]
    · rcases matchNumberDot line with _ | g
      · have hf : (!anyMarkerIn insFilterMarkers line) = true := by
          rw [anyInsFilter_false line e1 e2 e4 e5 e6]
          rfl
        rw [if_pos hf]
      · rfl
    · rfl

theorem allMarkers_split (line : String)
    (h : anyMarkerIn allMarkers line = false) :
    containsMarker "TITLE:" line = false ∧ containsMarker "INGREDIENTS:" line = false ∧
    containsMarker "INSTRUCTIONS:" line = false ∧ containsMarker "COOKING TIME:" line = false ∧
    containsMarker "DIFFICULTY:" line = false ∧ containsMarker "NOTES:" line = false := by
  have hall : (containsMarker "TITLE:" line || (containsMarker "INGREDIENTS:" line ||
      (containsMarker "INSTRUCTIONS:" line || (containsMarker "COOKING TIME:" line ||
        (containsMarker "DIFFICULTY:" line || (containsMarker "NOTES:" line || false)))))) = false := h
  simp only [Bool.or_false, Bool.or_eq_false_iff] at hall
  exact ⟨hall.1, hall.2.1, hall.2.2.1, hall.2.2.2.1, hall.2.2.2.2.1, hall.2.2.2.2.2⟩

theorem scanLine_notes_keep (st : PState) (line : String)
    (h : containsMarker "NOTES:" line = false)
    (hs : st.curSection ≠ some Sect.notes) :
    (scanLine st line).notes = st.notes ∧ (scanLine st line).curSection ≠ some Sect.notes := by
  have n6 : ¬(containsMarker "NOTES:" line = true) := by simp [h]
  unfold scanLine
  by_cases h0 : line = ""
  · rw [if_pos h0]; exact ⟨rfl, hs⟩
  rw [if_neg h0]
  by_cases h1 : containsMarker "TITLE:" line = true
  · rw [if_pos h1]; exact ⟨rfl, hs⟩
  rw [if_neg h1]
  by_cases h2 : containsMarker "INGREDIENTS:" line = true
  · rw [if_pos h2]
    exact ⟨rfl, fun hx => Option.noConfusion hx (fun h12 => Sect.noConfusion h12)⟩
  rw [if_neg h2]
  by_cases h3 : containsMarker "INSTRUCTIONS:" line = true
  · rw [if_pos h3]
    exact ⟨rfl, fun hx => Option.noConfusion hx (fun h12 => Sect.noConfusion h12)⟩
  rw [if_neg h3]
  by_cases h4 : containsMarker "COOKING TIME:" line = true
  · rw [if_pos h4]; exact ⟨rfl, hs⟩
  rw [if_neg h4]
  by_cases h5 : containsMarker "DIFFICULTY:" line = true
  · rw [if_pos h5]; exact ⟨rfl, hs⟩
  rw [if_neg h5, if_neg n6]
  rcases hcs : st.curSection with _ | (_ | _ | _)
  · exact ⟨rfl, hs⟩
  · split_ifs <;>
      first
      | exact ⟨rfl, hs⟩
      | exact ⟨rfl, fun hx => Option.noConfusion hx (fun h12 => Sect.noConfusion h12)⟩
  · rcases matchNumberDot line with _ | g
    · split_ifs <;>
        first
        | exact ⟨rfl, hs⟩
        | exact ⟨rfl, fun hx => Option.noConfusion hx (fun h12 => Sect.noConfusion h12)⟩
    · first
      | exact ⟨rfl, hs⟩
      | exact ⟨rfl, fun hx => Option.noConfusion hx (fun h12 => Sect.noConfusion h12)⟩
  · exact absurd hcs hs

theorem scanLine_inert (st : PState) (line : String)
    (hm : anyMarkerIn allMarkers line = false)
    (hs : st.curSection = none) :
    scanLine st line = st := by
  obtain ⟨e1, e2, e3, e4, e5, e6⟩ := allMarkers_split line hm
  have n1 : ¬(containsMarker "TITLE:" line = true) := by simp [e1]
  have n2 : ¬(containsMarker "INGREDIENTS:" line = true) := by simp [e2]
  have n3 : ¬(containsMarker "INSTRUCTIONS:" line = true) := by simp [e3]
  have n4 : ¬(containsMarker "COOKING TIME:" line = true) := by simp [e4]
  have n5 : ¬(containsMarker "DIFFICULTY:" line = true) := by simp [e5]
  have n6 : ¬(containsMarker "NOTES:" line = true) := by simp [e6]
  unfold scanLine
  by_cases h0 : line = ""
  · rw [if_pos h0]
  rw [if_neg h0, if_neg n1, if_neg n2, if_neg n3, if_neg n4, if_neg n5, if_neg n6, hs]

theorem scanLine_ing_append (st : PState) (line : String)
    (hcs : st.curSection = some Sect.ingredients)
    (hb : startsWithChar '-' line = true)
    (hm : anyMarkerIn allMarkers line = false) :
    scanLine st line =
      { st with ingredients := st.ingredients ++ [pyStrip (removeDashes line)] } := by
  obtain ⟨e1, e2, e3, e4, e5, e6⟩ := allMarkers_split line hm
  have n1 : ¬(containsMarker "TITLE:" line = true) := by simp [e1]
  have n2 : ¬(containsMarker "INGREDIENTS:" line = true) := by simp [e2]
  have n3 : ¬(containsMarker "INSTRUCTIONS:" line = true) := by simp [e3]
  have n4 : ¬(containsMarker "COOKING TIME:" line = true) := by simp [e4]
  have n5 : ¬(containsMarker "DIFFICULTY:" line = true) := by simp [e5]
  have n6 : ¬(containsMarker "NOTES:" line = true) := by simp [e6]
  have h0 : ¬(line = "") := by
    rintro rfl
    exact absurd hb (by decide)
  unfold scanLine
  rw [if_neg h0, if_neg n1, if_neg n2, if_neg n3, if_neg n4, if_neg n5, if_neg n6, hcs,
    if_pos hb]

theorem scanLine_ins_append (st : PState) (line : String) (g : String)
    (hcs : st.curSection = some Sect.instructions)
    (hg : matchNumberDot line = some g)
    (hm : anyMarkerIn allMarkers line = false) :
    scanLine st line =
      { st with instructions := st.instructions ++ [pyStrip g] } := by
  obtain ⟨e1, e2, e3, e4, e5, e6⟩ := allMarkers_split line hm
  have n1 : ¬(containsMarker "TITLE:" line = true) := by simp [e1]
  have n2 : ¬(containsMarker "INGREDIENTS:" line = true) := by simp [e2]
  have n3 : ¬(containsMarker "INSTRUCTIONS:" line = true) := by simp [e3]
  have n4 : ¬(containsMarker "COOKING TIME:" line = true) := by simp [e4]
  have n5 : ¬(containsMarker "DIFFICULTY:" line = true) := by simp [e5]
  have n6 : ¬(containsMarker "NOTES:" line = true) := by simp [e6]
  have h0 : ¬(line = "") := by
    rintro rfl
    rw [show matchNumberDot "" = none from rfl] at hg
    exact Option.noConfusion hg
  unfold scanLine
  rw [if_neg h0, if_neg n1, if_neg n2, if_neg n3, if_neg n4, if_neg n5, if_neg n6, hcs, hg]

theorem processLine_title_keep (st : PState) (raw : String)
    (h : containsMarker "TITLE:" (pyStrip raw) = false) :
    (processLine st raw).title = st.title :=
  scanLine_title_keep st (pyStrip raw) h

theorem processLine_cook_keep (st : PState) (raw : String)
    (h : containsMarker "COOKING TIME:" (pyStrip raw) = false) :
    (processLine st raw).cooking_time = st.cooking_time :=
  scanLine_cook_keep st (pyStrip raw) h

theorem processLine_diff_keep (st : PState) (raw : String)
    (h : containsMarker "DIFFICULTY:" (pyStrip raw) = false) :
    (processLine st raw).difficulty = st.difficulty :=
  scanLine_diff_keep st (pyStrip raw) h

theorem processLine_notes_keep (st : PState) (raw : String)
    (h : containsMarker "NOTES:" (pyStrip raw) = false)
    (hs : st.curSection ≠ some Sect.notes) :
    (processLine st raw).notes = st.notes ∧
      (processLine st raw).curSection ≠ some Sect.notes :=
  scanLine_notes_keep st (pyStrip raw) h hs

theorem foldl_title_keep (lines : List String) (st : PState)
    (h : ∀ l ∈ lines, containsMarker "TITLE:" (pyStrip l) = false) :
    (List.foldl processLine st lines).title = st.title := by
  induction lines generalizing st with
  | nil => rfl
  | cons x xs ih =>
    rw [List.foldl_cons, ih _ (fun l hl => h l (List.mem_cons_of_mem _ hl))]
    exact processLine_title_keep st x (h x (List.mem_cons_self _ _))

theorem foldl_cook_keep (lines : List String) (st : PState)
    (h : ∀ l ∈ lines, containsMarker "COOKING TIME:" (pyStrip l) = false) :
    (List.foldl processLine st lines).cooking_time = st.cooking_time := by
  induction lines generalizing st with
  | nil => rfl
  | cons x xs ih =>
    rw [List.foldl_cons, ih _ (fun l hl => h l (List.mem_cons_of_mem _ hl))]
    exact processLine_cook_keep st x (h x (List.mem_cons_self _ _))

theorem foldl_diff_keep (lines : List String) (st : PState)
    (h : ∀ l ∈ lines, containsMarker "DIFFICULTY:" (pyStrip l) = false) :
    (List.foldl processLine st lines).difficulty = st.difficulty := by
  induction lines generalizing st with
  | nil => rfl
  | cons x xs ih =>
    rw [List.foldl_cons, ih _ (fun l hl => h l (List.mem_cons_of_mem _ hl))]
    exact processLine_diff_keep st x (h x (List.mem_cons_self _ _))

theorem foldl_notes_keep (lines : List String) (st : PState)
    (h : ∀ l ∈ lines, containsMarker "NOTES:" (pyStrip l) = false)
    (hs : st.curSection ≠ some Sect.notes) :
    (List.foldl processLine st lines).notes = st.notes ∧
      (List.foldl processLine st lines).curSection ≠ some Sect.notes := by
  induction lines generalizing st with
  | nil => exact ⟨rfl, hs⟩
  | cons x xs ih =>
    rw [List.foldl_cons]
    obtain ⟨hn, hc⟩ := processLine_notes_keep st x (h x (List.mem_cons_self _ _)) hs
    obtain ⟨hn2, hc2⟩ := ih (processLine st x) (fun l hl => h l (List.mem_cons_of_mem _ hl)) hc
    exact ⟨hn2.trans hn, hc2⟩

theorem foldl_inert (lines : List String) (st : PState)
    (h : ∀ l ∈ lines, anyMarkerIn allMarkers (pyStrip l) = false)
    (hs : st.curSection = none) :
    List.foldl processLine st lines = st := by
  induction lines with
  | nil => rfl
  | cons x xs ih =>
    rw [List.foldl_cons,
      show processLine st x = st from scanLine_inert st (pyStrip x) (h x (List.mem_cons_self _ _)) hs]
    exact ih (fun l hl => h l (List.mem_cons_of_mem _ hl))

theorem finalize_notes_ne (st : PState) : (finalize st).notes ≠ "" := by
  show (if st.notes = "" then "No additional notes." else st.notes) ≠ ""
  split_ifs with h
  · decide
  · exact h

theorem finalize_diff_ne (st : PState) : (finalize st).difficulty ≠ "" := by
  show (if st.difficulty = "" then "Not specified" else st.difficulty) ≠ ""
  split_ifs with h
  · decide
  · exact h

theorem finalize_cook_ne (st : PState) : (finalize st).cooking_time ≠ "" := by
  show (if st.cooking_time = "" then "Not specified" else st.cooking_time) ≠ ""
  split_ifs with h
  · decide
  · exact h

theorem processLine_title_cursection (st : PState) (raw : String)
    (h : containsMarker "TITLE:" (pyStrip raw) = true) :
    (processLine st raw).curSection = st.curSection := by
  show (scanLine st (pyStrip raw)).curSection = st.curSection
  rw [scanLine_title_set st _ h]

theorem foldl_title_last (lines : List String) (st : PState) (l : String)
    (h : (lines.filter isTitleLine).getLast? = some l) :
    (List.foldl processLine st lines).title = subMarkerStart "TITLE:" (pyStrip l) := by
  revert h
  induction lines using List.reverseRecOn with
  | nil =>
    intro h
    simp at h
  | append_singleton ys y ih =>
    intro h
    rw [List.foldl_append]
    by_cases hy : isTitleLine y = true
    · have hfy : List.filter isTitleLine (ys ++ [y]) = List.filter isTitleLine ys ++ [y] := by
        rw [List.filter_append]
        simp [hy]
      rw [hfy, List.getLast?_concat] at h
      obtain rfl := Option.some.inj h
      show (processLine (List.foldl processLine st ys) y).title = _
      show (scanLine (List.foldl processLine st ys) (pyStrip y)).title = _
      rw [scanLine_title_set _ _ hy]
    · have hyf : isTitleLine y = false := by simpa using hy
      have hfy : List.filter isTitleLine (ys ++ [y]) = List.filter isTitleLine ys := by
        rw [List.filter_append]
        simp [hyf]
      rw [hfy] at h
      simp only [List.foldl_cons, List.foldl_nil]
      rw [processLine_title_keep _ _ hyf]
      exact ih h

theorem goodIngLine_split (l : String) (h : goodIngLine l = true) :
    pyStrip l = l ∧ startsWithChar '-' l = true ∧ anyMarkerIn allMarkers l = false := by
  have h' : ((pyStrip l == l) && startsWithChar '-' l && !(anyMarkerIn allMarkers l)) = true := h
  simp only [Bool.and_eq_true, Bool.not_eq_true'] at h'
  exact ⟨by simpa using h'.1.1, h'.1.2, h'.2⟩

theorem goodInsLine_split (l : String) (h : goodInsLine l = true) :
    pyStrip l = l ∧ (∃ g, matchNumberDot l = some g) ∧ anyMarkerIn allMarkers l = false := by
  have h' : ((pyStrip l == l) && (matchNumberDot l).isSome && !(anyMarkerIn allMarkers l)) = true := h
  simp only [Bool.and_eq_true, Bool.not_eq_true'] at h'
  exact ⟨by simpa using h'.1.1, Option.isSome_iff_exists.mp h'.1.2, h'.2⟩

theorem foldl_ing_append (ings : List String) (st : PState)
    (hcs : st.curSection = some Sect.ingredients)
    (h : ∀ l ∈ ings, goodIngLine l = true) :
    List.foldl processLine st ings =
      { st with ingredients :=
          st.ingredients ++ ings.map (fun l => pyStrip (removeDashes l)) } := by
  induction ings generalizing st with
  | nil => simp
  | cons x xs ih =>
    obtain ⟨hstr, hb, hm⟩ := goodIngLine_split x (h x (List.mem_cons_self _ _))
    have hpx : processLine st x =
        { st with ingredients := st.ingredients ++ [pyStrip (removeDashes x)] } := by
      show scanLine st (pyStrip x) = _
      rw [hstr]
      exact scanLine_ing_append st x hcs hb hm
    rw [List.foldl_cons, hpx,
      ih { st with ingredients := st.ingredients ++ [pyStrip (removeDashes x)] } hcs
        (fun l hl => h l (List.mem_cons_of_mem _ hl))]
    simp [List.append_assoc]

theorem foldl_ins_append (insts : List String) (st : PState)
    (hcs : st.curSection = some Sect.instructions)
    (h : ∀ l ∈ insts, goodInsLine l = true) :
    List.foldl processLine st insts =
      { st with instructions :=
          st.instructions ++ insts.map (fun l => pyStrip ((matchNumberDot l).getD l)) } := by
  induction insts generalizing st with
  | nil => simp
  | cons x xs ih =>
    obtain ⟨hstr, ⟨g, hg⟩, hm⟩ := goodInsLine_split x (h x (List.mem_cons_self _ _))
    have hpx : processLine st x =
        { st with instructions := st.instructions ++ [pyStrip ((matchNumberDot x).getD x)] } := by
      show scanLine st (pyStrip x) = _
      rw [hstr, hg, Option.getD_some]
      exact scanLine_ins_append st x g hcs hg hm
    rw [List.foldl_cons, hpx,
      ih { st with instructions := st.instructions ++ [pyStrip ((matchNumberDot x).getD x)] } hcs
        (fun l hl => h l (List.mem_cons_of_mem _ hl))]
    simp [List.append_assoc]

/-- Claim C8: the markdown normalization step is idempotent: removing all
star and hash characters twice yields the same string as removing them
once. -/
theorem c8_normalization_idempotent (s : String) :
    removeMarkdown (removeMarkdown s) = removeMarkdown s := by
  show (⟨((((s.data.filter (fun a => a != '*')).filter (fun a => a != '#')).filter
      (fun a => a != '*')).filter (fun a => a != '#'))⟩ : String) =
    ⟨(s.data.filter (fun a => a != '*')).filter (fun a => a != '#')⟩
  apply congrArg
  generalize s.data = l
  induction l with
  | nil => rfl
  | cons a t ih =>
    by_cases h1 : (a != '*') = true <;> by_cases h2 : (a != '#') = true <;>
      simp [-List.filter_filter, List.filter_cons, h1, h2, ih]

/-- Claim C2: Scenario A: the canonical well-formed completion parses to the
expected structured recipe record. -/
theorem c2_scenario_a :
    extract_recipe_parts "TITLE: Fried Rice\nINGREDIENTS:\n- 2 cups rice\n- 1 egg\nINSTRUCTIONS:\n1. Cook rice\n2. Fry egg\nCOOKING TIME: 15 minutes\nDIFFICULTY: Easy\nNOTES: Add soy sauce" =
      ⟨"Fried Rice", ["2 cups rice", "1 egg"], ["Cook rice", "Fry egg"],
        "15 minutes", "Easy", "Add soy sauce"⟩ := by decide

/-- Claim C6: when the upstream completion iteration raises after yielding a
fragment sequence, the streaming endpoints' generator yields exactly that
sequence in order, then one final fragment formed by "Error: " followed by
the exception message, and ends without raising. -/
theorem c6_stream_error_relay (fr : List String) (msg : String) (rest : List StreamEvent) :
    relayStream (fr.map StreamEvent.token ++ StreamEvent.failure msg :: rest) =
      fr ++ ["Error: " ++ msg] := by
  induction fr with
  | nil => rfl
  | cons a tl ih => simp [relayStream, ih]

/-- Claim C10: in both detailed context builders, each falsy constraint
value — an empty dietary list, an empty cuisine string, or a zero cooking
time — is treated exactly like an absent one, individually, whatever the
other two constraints are. -/
theorem c10_falsy_equals_absent (ings : List String) (s : Option Int)
    (d : Option (List String)) (c : Option String) (t : Option Int) :
    (buildDetailedContext ings s (some []) c t = buildDetailedContext ings s none c t ∧
      buildDetailedContext ings s d (some "") t = buildDetailedContext ings s d none t ∧
      buildDetailedContext ings s d c (some 0) = buildDetailedContext ings s d c none) ∧
    (buildDetailedContextStream ings s (some []) c t =
        buildDetailedContextStream ings s none c t ∧
      buildDetailedContextStream ings s d (some "") t =
        buildDetailedContextStream ings s d none t ∧
      buildDetailedContextStream ings s d c (some 0) =
        buildDetailedContextStream ings s d c none) :=
  ⟨⟨rfl, rfl, rfl⟩, ⟨rfl, rfl, rfl⟩⟩

/-- Claim C9: every line that reaches the section-routing step contains no
section marker, so the defensive marker filters of the ingredients and
instructions branches never exclude a line: the scanning step equals the
same step with both filters removed. -/
theorem c9_defensive_filters_redundant (st : PState) (raw : String) :
    processLine st raw = processLineNoFilter st raw :=
  scanLine_eq_noFilter st (pyStrip raw)

/-- Claim C5 counterexample: with no dietary restrictions, cuisine or
cooking time, the detailed prompt context consists of only the two base
lines; the placeholders "None specified", "Any" and "Not specified" the
claim requires do not occur anywhere in it. -/
theorem c5_counterexample :
    buildDetailedContext ["rice"] (some 2) none none none =
        "Main Ingredients Available: rice\nServings: 2" ∧
      pyIn "None specified" (buildDetailedContext ["rice"] (some 2) none none none) = false ∧
      pyIn "Any" (buildDetailedContext ["rice"] (some 2) none none none) = false ∧
      pyIn "Not specified" (buildDetailedContext ["rice"] (some 2) none none none) = false := by
  refine ⟨by decide, by decide, by decide, by decide⟩

/-- Claim C5 amended: for every request, the detailed prompt context is
exactly the claim's stable-order enumeration — the two base lines, then one
line per supplied truthy constraint in the order dietary restrictions,
cuisine preference, cooking time — with an absent (or falsy) constraint
producing no line at all rather than a placeholder; the streaming builder
produces the identical context. -/
theorem c5_amended_absent_omitted (ings : List String) (s : Option Int)
    (d : Option (List String)) (c : Option String) (t : Option Int) :
    buildDetailedContextStream ings s d c t = buildDetailedContext ings s d c t ∧
      buildDetailedContext ings s d c t = pyJoin "\n" (claimedContextLines ings s d c t) := by
  refine ⟨rfl, ?_⟩
  rcases d with _ | (_ | ⟨d0, ds⟩) <;> rcases c with _ | c0 <;> rcases t with _ | t0
  all_goals try by_cases hc : c0 = ""
  all_goals try subst hc
  all_goals try by_cases ht : t0 = 0
  all_goals try subst ht
  all_goals
    first
    | rfl
    | simp_all [buildDetailedContext, claimedContextLines]

/-- Claim C4 counterexample: on the marker-free input "Fried Rice Supreme"
the parser returns an empty title, not the first non-bulleted line: there is
no legacy title fallback in the code. -/
theorem c4_counterexample :
    (extract_recipe_parts "Fried Rice Supreme").title = "" ∧
      (extract_recipe_parts "Fried Rice Supreme").title ≠ "Fried Rice Supreme" := by
  refine ⟨by decide, by decide⟩

/-- Claim C4 amended: on a completion containing none of the six section
markers, extract_recipe_parts returns an empty title, empty ingredient and
instruction lists, and the three defaulted single-line fields. -/
theorem c4_amended_no_markers_all_default (text : String)
    (h : (linesOfText text).all (fun l => !(anyMarkerIn allMarkers (pyStrip l))) = true) :
    extract_recipe_parts text =
      ⟨"", [], [], "Not specified", "Not specified", "No additional notes."⟩ := by
  have h' : ∀ l ∈ linesOfText text, anyMarkerIn allMarkers (pyStrip l) = false := by
    intro l hl
    simpa using List.all_eq_true.mp h l hl
  show finalize (List.foldl processLine initState (linesOfText text)) = _
  rw [foldl_inert (linesOfText text) initState h' rfl]
  rfl

/-- Witness for the amended C4 at the concrete Scenario B input. -/
theorem c4_witness :
    extract_recipe_parts "Fried Rice Supreme" =
      ⟨"", [], [], "Not specified", "Not specified", "No additional notes."⟩ :=
  c4_amended_no_markers_all_default "Fried Rice Supreme" (by decide)

/-- Claim C1: extract_recipe_parts is total (a record with all fields
defined, the three single-line fields never empty) and applies the
documented defaults: with no NOTES: marker line the notes field is
"No additional notes.", with no DIFFICULTY: marker "Not specified", and
with no COOKING TIME: marker "Not specified". -/
theorem c1_total_fields_and_defaults (text : String) :
    (extract_recipe_parts text).notes ≠ "" ∧
    (extract_recipe_parts text).difficulty ≠ "" ∧
    (extract_recipe_parts text).cooking_time ≠ "" ∧
    ((linesOfText text).all (fun l => !(containsMarker "NOTES:" (pyStrip l))) = true →
      (extract_recipe_parts text).notes = "No additional notes.") ∧
    ((linesOfText text).all (fun l => !(containsMarker "DIFFICULTY:" (pyStrip l))) = true →
      (extract_recipe_parts text).difficulty = "Not specified") ∧
    ((linesOfText text).all (fun l => !(containsMarker "COOKING TIME:" (pyStrip l))) = true →
      (extract_recipe_parts text).cooking_time = "Not specified") := by
  refine ⟨finalize_notes_ne _, finalize_diff_ne _, finalize_cook_ne _, ?_, ?_, ?_⟩
  · intro h
    have h' : ∀ l ∈ linesOfText text, containsMarker "NOTES:" (pyStrip l) = false := by
      intro l hl
      simpa using List.all_eq_true.mp h l hl
    have hk := foldl_notes_keep (linesOfText text) initState h'
      (fun hx => Option.noConfusion hx)
    have hn : (List.foldl processLine initState (linesOfText text)).notes = "" := hk.1
    show (if (List.foldl processLine initState (linesOfText text)).notes = ""
        then "No additional notes."
        else (List.foldl processLine initState (linesOfText text)).notes) = "No additional notes."
    rw [if_pos hn]
  · intro h
    have h' : ∀ l ∈ linesOfText text, containsMarker "DIFFICULTY:" (pyStrip l) = false := by
      intro l hl
      simpa using List.all_eq_true.mp h l hl
    have hd : (List.foldl processLine initState (linesOfText text)).difficulty = "" :=
      foldl_diff_keep (linesOfText text) initState h'
    show (if (List.foldl processLine initState (linesOfText text)).difficulty = ""
        then "Not specified"
        else (List.foldl processLine initState (linesOfText text)).difficulty) = "Not specified"
    rw [if_pos hd]
  · intro h
    have h' : ∀ l ∈ linesOfText text, containsMarker "COOKING TIME:" (pyStrip l) = false := by
      intro l hl
      simpa using List.all_eq_true.mp h l hl
    have hc : (List.foldl processLine initState (linesOfText text)).cooking_time = "" :=
      foldl_cook_keep (linesOfText text) initState h'
    show (if (List.foldl processLine initState (linesOfText text)).cooking_time = ""
        then "Not specified"
        else (List.foldl processLine initState (linesOfText text)).cooking_time) = "Not specified"
    rw [if_pos hc]

/-- Witness for C1 at a concrete marker-free text. -/
theorem c1_witness :
    (extract_recipe_parts "hello").notes = "No additional notes." ∧
    (extract_recipe_parts "hello").difficulty = "Not specified" ∧
    (extract_recipe_parts "hello").cooking_time = "Not specified" := by
  obtain ⟨-, -, -, h4, h5, h6⟩ := c1_total_fields_and_defaults "hello"
  exact ⟨h4 (by decide), h5 (by decide), h6 (by decide)⟩

/-- Claim C7: with one or more TITLE: lines, the parsed title comes from the
last such line (last-wins), and processing a TITLE: line never changes the
current section cursor. -/
theorem c7_title_last_wins (text : String) (l : String)
    (h : ((linesOfText text).filter isTitleLine).getLast? = some l) :
    (extract_recipe_parts text).title = subMarkerStart "TITLE:" (pyStrip l) ∧
    ∀ (st : PState) (raw : String), isTitleLine raw = true →
      (processLine st raw).curSection = st.curSection := by
  constructor
  · show (List.foldl processLine initState (linesOfText text)).title = _
    exact foldl_title_last (linesOfText text) initState l h
  · intro st raw hr
    exact processLine_title_cursection st raw hr

/-- Witness for C7 on a text with two TITLE: lines: the second one wins. -/
theorem c7_witness :
    (extract_recipe_parts "TITLE: A\nTITLE: B").title = "B" := by
  have h := (c7_title_last_wins "TITLE: A\nTITLE: B" "TITLE: B" (by decide)).1
  exact h.trans (by decide)

/-- Claim C3 counterexample: in a canonical-order completion the bulleted
line "- long-grain rice" yields the entry "longgrain rice": the code removes
every dash, not only the leading bullet. -/
theorem c3_counterexample :
    (extract_recipe_parts "TITLE: X\nINGREDIENTS:\n- long-grain rice\nINSTRUCTIONS:\n1. Cook\nCOOKING TIME: 5 minutes\nDIFFICULTY: Easy\nNOTES: ok").ingredients
        = ["longgrain rice"] ∧
      (extract_recipe_parts "TITLE: X\nINGREDIENTS:\n- long-grain rice\nINSTRUCTIONS:\n1. Cook\nCOOKING TIME: 5 minutes\nDIFFICULTY: Easy\nNOTES: ok").ingredients
        ≠ ["long-grain rice"] := by
  refine ⟨by decide, by decide⟩

/-- Claim C3 amended: in a canonical-order completion, each bulleted
ingredient line maps one-to-one and in order to an entry equal to the line
with every dash removed and whitespace stripped, and each numbered
instruction line maps one-to-one and in order to an entry equal to the line
with the numbering prefix removed. -/
theorem c3_amended_section_routing (ings insts : List String)
    (h1 : ings.all goodIngLine = true) (h2 : insts.all goodInsLine = true) :
    (extractLines (canonLines ings insts)).ingredients =
        ings.map (fun l => pyStrip (removeDashes l)) ∧
      (extractLines (canonLines ings insts)).instructions =
        insts.map (fun l => pyStrip ((matchNumberDot l).getD l)) := by
  have h1' := List.all_eq_true.mp h1
  have h2' := List.all_eq_true.mp h2
  have hfold : List.foldl processLine initState (canonLines ings insts) =
      (⟨"Recipe", List.map (fun l => pyStrip (removeDashes l)) ings,
        List.map (fun l => pyStrip ((matchNumberDot l).getD l)) insts,
        "10 minutes", "Easy", "ok", some Sect.notes⟩ : PState) := by
    show List.foldl processLine initState
        ((((["TITLE: Recipe", "INGREDIENTS:"] ++ ings) ++ ["INSTRUCTIONS:"]) ++ insts) ++
          ["COOKING TIME: 10 minutes", "DIFFICULTY: Easy", "NOTES: ok"]) = _
    rw [List.foldl_append, List.foldl_append, List.foldl_append, List.foldl_append]
    rw [show List.foldl processLine initState ["TITLE: Recipe", "INGREDIENTS:"] =
        (⟨"Recipe", [], [], "", "", "", some Sect.ingredients⟩ : PState) from rfl]
    rw [show List.foldl processLine
          (⟨"Recipe", [], [], "", "", "", some Sect.ingredients⟩ : PState) ings =
        (⟨"Recipe", List.map (fun l => pyStrip (removeDashes l)) ings, [], "", "", "",
          some Sect.ingredients⟩ : PState) from
      foldl_ing_append ings _ rfl h1']
    rw [show List.foldl processLine
          (⟨"Recipe", List.map (fun l => pyStrip (removeDashes l)) ings, [], "", "", "",
            some Sect.ingredients⟩ : PState) ["INSTRUCTIONS:"] =
        (⟨"Recipe", List.map (fun l => pyStrip (removeDashes l)) ings, [], "", "", "",
          some Sect.instructions⟩ : PState) from rfl]
    rw [show List.foldl processLine
          (⟨"Recipe", List.map (fun l => pyStrip (removeDashes l)) ings, [], "", "", "",
            some Sect.instructions⟩ : PState) insts =
        (⟨"Recipe", List.map (fun l => pyStrip (removeDashes l)) ings,
          List.map (fun l => pyStrip ((matchNumberDot l).getD l)) insts, "", "", "",
          some Sect.instructions⟩ : PState) from
      foldl_ins_append insts _ rfl h2']
    rfl
  constructor
  · show (finalize (List.foldl processLine initState (canonLines ings insts))).ingredients = _
    rw [hfold]
    rfl
  · show (finalize (List.foldl processLine initState (canonLines ings insts))).instructions = _
    rw [hfold]
    rfl

/-- Witness for the amended C3 at a concrete one-ingredient,
one-instruction canonical completion. -/
theorem c3_witness :
    (extractLines (canonLines ["- 2 cups rice"] ["1. Cook rice"])).ingredients = ["2 cups rice"] ∧
      (extractLines (canonLines ["- 2 cups rice"] ["1. Cook rice"])).instructions = ["Cook rice"] := by
  obtain ⟨a, b⟩ := c3_amended_section_routing ["- 2 cups rice"] ["1. Cook rice"]
    (by decide) (by decide)
  exact ⟨a.trans (by decide), b.trans (by decide)⟩

/-- Sanity evaluation: with every constraint supplied and truthy, the
detailed context enumerates all five lines in the stable order. -/
theorem buildDetailedContext_all_supplied :
    buildDetailedContext ["rice", "egg"] none (some ["halal"]) (some "asian") (some 30) =
      "Main Ingredients Available: rice, egg\nServings: 2\nDietary Restrictions: halal\nCuisine Preference: asian\nMaximum Cooking Time: 30 minutes" := by
  decide
